import Mathlib

/-
A shallow embedding of the astrbot_plugin_douyu_live plugin, verifying the
specification claims against the source in src/.  Python dicts are modelled
as insertion-ordered association lists (as Python dicts are), JSON documents
as structures over those lists, timestamps as integers (every scenario in the
claims uses whole seconds), and fallible Python code as Except values.
-/

namespace Douyu

/-- Modelled from the spec: utils/constants.py as shipped under src does not
define DEFAULT_HIGH_VALUE_THRESHOLD, although models/subscription.py and
storage/data_manager.py import it from there.  The spec glossary only says a
high-value gift is one whose value meets a configured threshold; we fix the
constant to 10000, matching HIGH_VALUE_DEVOTE_THRESHOLD in utils/gift_config.py.
No theorem below depends on this numeric value. -/
def DEFAULT_HIGH_VALUE_THRESHOLD : Int := 10000

/-- models/subscription.py: dataclass SubscriptionConfig with its field defaults. -/
structure SubscriptionConfig where
  at_all : Bool := false
  gift_notify : Bool := false
  high_value_only : Bool := true
  high_value_threshold : Option Int := some DEFAULT_HIGH_VALUE_THRESHOLD
deriving DecidableEq

/-- The JSON object produced for / consumed from a SubscriptionConfig.  Each
field is optional because from_dict reads every field with data.get and a
default; high_value_threshold uses none for both a missing key and JSON null,
exactly as data.get does.  to_dict always writes integer thresholds, so the
int() coercion in from_dict is the identity on everything to_dict emits. -/
structure SubConfigDict where
  at_all : Option Bool := none
  gift_notify : Option Bool := none
  high_value_only : Option Bool := none
  high_value_threshold : Option Int := none
deriving DecidableEq

/-- models/subscription.py: SubscriptionConfig.to_dict (dataclasses.asdict). -/
def SubscriptionConfig.to_dict (c : SubscriptionConfig) : SubConfigDict :=
  { at_all := some c.at_all
    gift_notify := some c.gift_notify
    high_value_only := some c.high_value_only
    high_value_threshold := c.high_value_threshold }

/-- models/subscription.py: SubscriptionConfig.from_dict.  When the stored
threshold is present, high_value_only is recomputed as "parsed threshold is
not None"; when it is absent, a truthy high_value_only substitutes the default
threshold. -/
def SubscriptionConfig.from_dict (d : SubConfigDict) : SubscriptionConfig :=
  let raw := d.high_value_threshold
  let parsed : Option Int :=
    match raw with
    | some t => some t
    | none =>
        if d.high_value_only.getD true then some DEFAULT_HIGH_VALUE_THRESHOLD
        else none
  let hvo : Bool :=
    match raw with
    | some _ => parsed.isSome
    | none => d.high_value_only.getD true
  { at_all := d.at_all.getD false
    gift_notify := d.gift_notify.getD false
    high_value_only := hvo
    high_value_threshold := parsed }

/-- models/room.py: dataclass RoomInfo.  Note that it has NO high_value_only
field; its fields are exactly these six. -/
structure RoomInfo where
  name : String
  added_by : String := ""
  added_time : String := ""
  at_all : Bool := false
  gift_notify : Bool := false
  min_gift_price : Int := 0
deriving DecidableEq

/-- The JSON object produced for / consumed from a RoomInfo. -/
structure RoomInfoDict where
  name : Option String := none
  added_by : Option String := none
  added_time : Option String := none
  at_all : Option Bool := none
  gift_notify : Option Bool := none
  min_gift_price : Option Int := none
deriving DecidableEq

/-- models/room.py: RoomInfo.to_dict (dataclasses.asdict). -/
def RoomInfo.to_dict (r : RoomInfo) : RoomInfoDict :=
  { name := some r.name
    added_by := some r.added_by
    added_time := some r.added_time
    at_all := some r.at_all
    gift_notify := some r.gift_notify
    min_gift_price := some r.min_gift_price }

/-- models/room.py: RoomInfo.from_dict, reading each field with a default. -/
def RoomInfo.from_dict (d : RoomInfoDict) : RoomInfo :=
  { name := d.name.getD ""
    added_by := d.added_by.getD ""
    added_time := d.added_time.getD ""
    at_all := d.at_all.getD false
    gift_notify := d.gift_notify.getD false
    min_gift_price := d.min_gift_price.getD 0 }

/-- storage/data_manager.py line 79ff accesses room_info.high_value_only during
legacy migration.  RoomInfo (models/room.py) declares no attribute of that
name, so the Python attribute access raises AttributeError unconditionally;
this embedding therefore always returns the error. -/
def RoomInfo.high_value_only_attr (_ : RoomInfo) : Except String Bool :=
  .error "AttributeError: RoomInfo has no attribute named high_value_only"

/-- A value stored under a umo key in the new-format subscriptions object:
either a JSON object (parsed with from_dict) or any other JSON value (the
compatibility fallback at data_manager.py line 97ff uses a default config). -/
inductive ConfigCell where
  | dict (d : SubConfigDict)
  | other
deriving DecidableEq

/-- A room entry of the persisted "subscriptions" map: either the legacy
format (a flat JSON list of umo strings) or the new format (umo to config
object).  JSON object keys are serialized room-id strings; int(str(k)) = k,
so keys are modelled directly as naturals. -/
inductive SubEntry where
  | legacy (umos : List String)
  | configs (m : List (String × ConfigCell))
deriving DecidableEq

/-- The persisted JSON document: the two top-level maps of data_manager.py. -/
structure DataDoc where
  subscriptions : List (Nat × SubEntry) := []
  room_info : List (Nat × RoomInfoDict) := []
deriving DecidableEq

/-- The in-memory state of DataManager: room_id to (umo to config), and
room_id to RoomInfo. -/
structure DMData where
  subscriptions : List (Nat × List (String × SubscriptionConfig)) := []
  room_info : List (Nat × RoomInfo) := []
deriving DecidableEq

/-- Python dict assignment d[k] = v on an insertion-ordered association list:
replace in place when the key exists, append otherwise. -/
def upsert {α β : Type} [BEq α] (k : α) (v : β) : List (α × β) → List (α × β)
  | [] => [(k, v)]
  | p :: rest => if p.1 == k then (k, v) :: rest else p :: upsert k v rest

/-- data_manager.py load, legacy branch: the per-umo migration loop.  With a
stored RoomInfo the constructed config copies the room-level flags, but the
room_info.high_value_only access raises (see RoomInfo.high_value_only_attr);
without one the default config is used. -/
def migrateUmos (ri : Option RoomInfo) : List String → Except String (List (String × SubscriptionConfig))
  | [] => .ok []
  | umo :: rest =>
      match ri with
      | some r =>
          match r.high_value_only_attr with
          | .error e => .error e
          | .ok hvo =>
              match migrateUmos ri rest with
              | .error e => .error e
              | .ok tail =>
                  .ok ((umo,
                        { at_all := r.at_all
                          gift_notify := r.gift_notify
                          high_value_only := hvo
                          high_value_threshold :=
                            if hvo then some DEFAULT_HIGH_VALUE_THRESHOLD else none
                          : SubscriptionConfig }) :: tail)
      | none =>
          match migrateUmos ri rest with
          | .error e => .error e
          | .ok tail => .ok ((umo, ({} : SubscriptionConfig)) :: tail)

/-- data_manager.py load: the value loaded for one umo in the new format. -/
def loadConfigCell : ConfigCell → SubscriptionConfig
  | .dict d => SubscriptionConfig.from_dict d
  | .other => {}

/-- data_manager.py load: one room entry of the raw subscriptions map. -/
def loadSubEntry (ri : Option RoomInfo) : SubEntry → Except String (List (String × SubscriptionConfig))
  | .legacy umos => migrateUmos ri umos
  | .configs m => .ok (m.map fun q => (q.1, loadConfigCell q.2))

/-- data_manager.py load: the loop over raw_subs.items(), in order; the first
exception aborts the whole load. -/
def loadSubs (ri : List (Nat × RoomInfo)) : List (Nat × SubEntry) → Except String (List (Nat × List (String × SubscriptionConfig)))
  | [] => .ok []
  | p :: rest =>
      match loadSubEntry (List.lookup p.1 ri) p.2 with
      | .error e => .error e
      | .ok m =>
          match loadSubs ri rest with
          | .error e => .error e
          | .ok tail => .ok ((p.1, m) :: tail)

/-- data_manager.py load, the body of the try block: room_info is rebuilt
first, then the subscriptions map. -/
def DataManager.loadCore (doc : DataDoc) : Except String DMData :=
  let ri := doc.room_info.map fun p => (p.1, RoomInfo.from_dict p.2)
  match loadSubs ri doc.subscriptions with
  | .ok subs => .ok ⟨subs, ri⟩
  | .error e => .error e

/-- data_manager.py load line 102: any(isinstance(v, list) for v in raw_subs.values()). -/
def SubEntry.isLegacy : SubEntry → Bool
  | .legacy _ => true
  | .configs _ => false

/-- True when the persisted document still contains a legacy room entry. -/
def DataDoc.hasLegacy (doc : DataDoc) : Bool :=
  doc.subscriptions.any fun p => p.2.isLegacy

/-- data_manager.py load: on success the Boolean records whether save() was
invoked to rewrite a migrated legacy document; the except clause resets both
in-memory maps to empty (and never reaches the save call). -/
def DataManager.load (doc : DataDoc) : DMData × Bool :=
  match DataManager.loadCore doc with
  | .ok d => (d, doc.hasLegacy)
  | .error _ => (⟨[], []⟩, false)

/-- data_manager.py save: serialize both maps with to_dict. -/
def DataManager.save (d : DMData) : DataDoc :=
  { subscriptions :=
      d.subscriptions.map fun p =>
        (p.1, SubEntry.configs (p.2.map fun q => (q.1, ConfigCell.dict q.2.to_dict)))
    room_info := d.room_info.map fun p => (p.1, p.2.to_dict) }

/-- data_manager.py subscribe: create the room dict when absent, refuse when
the umo is already present (returning False and leaving the state alone),
otherwise insert a default config.  The save() side effect rewrites the store
from the returned state and is not modelled separately. -/
def DataManager.subscribe (d : DMData) (room : Nat) (umo : String) : Bool × DMData :=
  let d1 :=
    if (List.lookup room d.subscriptions).isSome then d
    else { d with subscriptions := upsert room [] d.subscriptions }
  let m := (List.lookup room d1.subscriptions).getD []
  if (List.lookup umo m).isSome then (false, d1)
  else (true, { d1 with subscriptions := upsert room (upsert umo {} m) d1.subscriptions })

/-- data_manager.py get_subscription_config. -/
def DataManager.get_subscription_config (d : DMData) (room : Nat) (umo : String) : Option SubscriptionConfig :=
  match List.lookup room d.subscriptions with
  | none => none
  | some m => List.lookup umo m

/-! utils/gift_config.py: the gift catalog caches and their refresh. -/

/-- The devote value attached to a gift entry in the remote catalog JSON:
absent (treated as 0), a number (int(float(devote)) collapses to the integer
part, modelled as the integer itself since no claim involves fractions), or a
value on which int(float(.)) raises (the entry is skipped). -/
inductive DevoteVal where
  | num (n : Int)
  | malformed
deriving DecidableEq

/-- One value of the remote "data" object: a gift-info object carrying a
"name" (a JSON string, possibly missing) and a "devote", or any non-dict
value (skipped by every parser). -/
inductive GiftCell where
  | info (name : Option String) (devote : Option DevoteVal)
  | other
deriving DecidableEq

/-- The parsed remote catalog JSON: its "data" object as an association list
over gift-id strings. -/
structure GiftData where
  data : List (String × GiftCell) := []
deriving DecidableEq

/-- gift_config.py HIGH_VALUE_DEVOTE_THRESHOLD. -/
def HIGH_VALUE_DEVOTE_THRESHOLD : Int := 10000

/-- gift_config.py _parse_gift_mapping: entries with a truthy name (Python
the Python truthiness test on name rejects the empty string). -/
def parse_gift_mapping (d : GiftData) : List (String × String) :=
  d.data.filterMap fun p =>
    match p.2 with
    | .info (some nm) _ => if nm = "" then none else some (p.1, nm)
    | _ => none

/-- gift_config.py: the devote parse shared by _parse_high_value_gifts and
_parse_gift_values: none when int(float(devote)) raises (entry skipped),
0 when devote is absent. -/
def parseDevote : Option DevoteVal → Option Int
  | none => some 0
  | some (.num n) => some n
  | some .malformed => none

/-- gift_config.py _parse_high_value_gifts. -/
def parse_high_value_gifts (d : GiftData) : List String :=
  d.data.filterMap fun p =>
    match p.2 with
    | .info _ devote =>
        match parseDevote devote with
        | some v => if HIGH_VALUE_DEVOTE_THRESHOLD ≤ v then some p.1 else none
        | none => none
    | .other => none

/-- gift_config.py _parse_gift_values. -/
def parse_gift_values (d : GiftData) : List (String × Int) :=
  d.data.filterMap fun p =>
    match p.2 with
    | .info _ devote =>
        match parseDevote devote with
        | some v => some (p.1, v)
        | none => none
    | .other => none

/-- The module-level caches of gift_config.py, passed explicitly.  The Python
module seeds the global high-value cache from HIGH_VALUE_GIFT_IDS (a
constant missing from src/utils/constants.py); every theorem below either
quantifies over the caches or derives them through update_gift_config, so the
initial contents never matter. -/
structure GiftCaches where
  giftName : List (String × String) := []
  highValue : List String := []
  giftValue : List (String × Int) := []
  roomGiftName : List (Nat × List (String × String)) := []
  roomHighValue : List (Nat × List String) := []
  roomGiftValue : List (Nat × List (String × Int)) := []
deriving DecidableEq

/-- The HTTP fetch of the gift catalog, as seen after raise_for_status and
_strip_jsonp: an HTTP error, or a body that is empty, fails json.loads, or
parses to a GiftData. -/
inductive GiftResponse where
  | httpError
  | emptyBody
  | notJson
  | json (d : GiftData)
deriving DecidableEq

/-- gift_config.py update_gift_config, with the global caches passed and
returned explicitly.  Every failure (HTTP error, empty response, unparsable
JSON, no gift data) raises before the first cache mutation, so the caches
come back untouched on the error paths; on success the name cache is replaced
and the value / high-value caches are replaced only when their parses are
non-empty. -/
def update_gift_config (resp : GiftResponse) (c : GiftCaches) : Except String Nat × GiftCaches :=
  match resp with
  | .httpError => (.error "HTTPStatusError", c)
  | .emptyBody => (.error "ValueError: empty gift config response", c)
  | .notJson => (.error "ValueError: gift config response is not JSON", c)
  | .json d =>
      let mapping := parse_gift_mapping d
      let high := parse_high_value_gifts d
      let values := parse_gift_values d
      if mapping.isEmpty then
        (.error "ValueError: no gift data in response", c)
      else
        let c1 := { c with giftName := mapping }
        let c2 := if values.isEmpty then c1 else { c1 with giftValue := values }
        let c3 := if high.isEmpty then c2 else { c2 with highValue := high }
        (.ok c3.giftName.length, c3)

/-- gift_config.py is_high_value_gift: a per-room high-value set, when one was
fetched, takes priority over the global set. -/
def is_high_value_gift (c : GiftCaches) (giftId : String) (room : Option Nat) : Bool :=
  match room with
  | some r =>
      match List.lookup r c.roomHighValue with
      | some s => s.contains giftId
      | none => c.highValue.contains giftId
  | none => c.highValue.contains giftId

/-- gift_config.py get_gift_value: room value cache first (when present and
holding the gift), then the global cache; none when unresolvable. -/
def get_gift_value (c : GiftCaches) (giftId : String) (room : Option Nat) : Option Int :=
  match room with
  | some r =>
      match List.lookup r c.roomGiftValue with
      | some values =>
          match List.lookup giftId values with
          | some v => some v
          | none => List.lookup giftId c.giftValue
      | none => List.lookup giftId c.giftValue
  | none => List.lookup giftId c.giftValue

/-- main.py _on_gift lines 244 to 253: the dispatch set for a gift event, as
the list of umos kept by the filter.  A subscriber is skipped when
gift_notify is off, or when high_value_only is set and the gift is not in the
high-value catalog set; the per-subscriber high_value_threshold is never
read.  (_on_gift has already checked that the room is monitored.) -/
def onGiftSubscribers (c : GiftCaches) (room : Nat) (subs : List (String × SubscriptionConfig)) (giftId : String) : List String :=
  (subs.filter fun q =>
      q.2.gift_notify && (!q.2.high_value_only || is_high_value_gift c giftId (some room))).map
    fun q => q.1

/-! core/monitor.py: the live-state debouncer. -/

/-- A raw rss status ping: the two string sub-fields, each read with msg.get
and a default ("0" for ss, "1" for ivl). -/
structure RssMsg where
  ss : Option String := none
  ivl : Option String := none
deriving DecidableEq

/-- monitor.py line 66ff: is_live = (ss == "1" and ivl == "0"); a missing or
malformed field therefore reads as not live. -/
def RssMsg.isLive (m : RssMsg) : Bool :=
  (m.ss.getD "0" == "1") && (m.ivl.getD "1" == "0")

/-- monitor.py __init__: the per-room mutable monitor state.  last_live_status
is None before the first ping; _last_notify_time starts at 0.0. -/
structure MonitorState where
  lastLiveStatus : Option Bool := none
  liveStartTime : Option Int := none
  hasAnnouncedLive : Bool := false
  lastNotifyTime : Int := 0
deriving DecidableEq

/-- monitor.py __init__: _notify_cooldown = 30.0 seconds. -/
def NOTIFY_COOLDOWN : Int := 30

/-- The initial MonitorState built by __init__. -/
def monitorInit : MonitorState := {}

/-- The notifications a ping handler hands to its callbacks, annotated with
the wall-clock instant of the emission (liveStarted) or the computed session
duration (liveEnded). -/
inductive MonitorEvent where
  | liveStarted (roomId : Nat) (time : Int)
  | liveEnded (roomId : Nat) (duration : Int)
deriving DecidableEq

/-- monitor.py _rss_handler, as a pure step: one status ping observed at the
instant now, returning the updated state and the emitted events (the callback
invocations).  Branches, in source order: first ping (status None) records the
status and immediately announces an initial live; an unchanged status is
ignored; a change inside the notify cooldown updates the status silently (and
the start time when going live); offline to live announces and marks
_has_announced_live; live to offline computes the duration (Python truthiness:
a stored start time of 0.0 is falsy, so it yields duration 0 and is not
cleared), emits only when _has_announced_live is set, and clears the flag. -/
def rssHandler (roomId : Nat) (s : MonitorState) (m : RssMsg) (now : Int) : MonitorState × List MonitorEvent :=
  let is_live := m.isLive
  match s.lastLiveStatus with
  | none =>
      if is_live then
        ({ s with lastLiveStatus := some true
                  liveStartTime := some now
                  hasAnnouncedLive := true
                  lastNotifyTime := now },
         [.liveStarted roomId now])
      else
        ({ s with lastLiveStatus := some false }, [])
  | some last =>
      if is_live == last then (s, [])
      else if now - s.lastNotifyTime < NOTIFY_COOLDOWN then
        ({ s with lastLiveStatus := some is_live
                  liveStartTime := if is_live then some now else s.liveStartTime }, [])
      else if is_live && !last then
        ({ s with lastLiveStatus := some true
                  liveStartTime := some now
                  lastNotifyTime := now
                  hasAnnouncedLive := true },
         [.liveStarted roomId now])
      else
        let startTruthy :=
          match s.liveStartTime with
          | some st => st != 0
          | none => false
        let duration :=
          match s.liveStartTime with
          | some st => if st != 0 then now - st else 0
          | none => 0
        let clearedStart : Option Int :=
          if startTruthy then none else s.liveStartTime
        if s.hasAnnouncedLive then
          ({ s with lastLiveStatus := some false
                    liveStartTime := clearedStart
                    hasAnnouncedLive := false
                    lastNotifyTime := now },
           [.liveEnded roomId duration])
        else
          ({ s with lastLiveStatus := some false
                    liveStartTime := clearedStart
                    hasAnnouncedLive := false }, [])

/-- Feed a timed sequence of pings through the handler, collecting events. -/
def runRss (roomId : Nat) : MonitorState → List (RssMsg × Int) → MonitorState × List MonitorEvent
  | s, [] => (s, [])
  | s, p :: rest =>
      let step := rssHandler roomId s p.1 p.2
      let tail := runRss roomId step.1 rest
      (tail.1, step.2 ++ tail.2)

/-- A ping reporting live: ss = "1", ivl = "0". -/
def liveMsg : RssMsg := { ss := some "1", ivl := some "0" }

/-- A ping reporting offline. -/
def offlineMsg : RssMsg := { ss := some "0", ivl := some "0" }

/-- Count the liveStarted events of an emission list. -/
def countStarted : List MonitorEvent → Nat
  | [] => 0
  | .liveStarted _ _ :: rest => countStarted rest + 1
  | .liveEnded _ _ :: rest => countStarted rest

/-- Count the liveEnded events of an emission list. -/
def countEnded : List MonitorEvent → Nat
  | [] => 0
  | .liveStarted _ _ :: rest => countEnded rest
  | .liveEnded _ _ :: rest => countEnded rest + 1

/-! main.py: the notification retry queue. -/

/-- main.py: dataclass PendingNotification. -/
structure PendingNotification where
  subscriberSettings : List (String × Bool)
  message : String
  retryCount : Nat := 0
deriving DecidableEq

/-- main.py _process_notification_queue: MAX_RETRIES = 5. -/
def MAX_RETRIES : Nat := 5

/-- main.py _process_notification_queue, one wake-up of the sweep in the case
where every delivery attempt raises: the queue is drained, each item has its
retry counter incremented, and it is re-queued only while the counter stays
below MAX_RETRIES; otherwise it is dropped (logged as a permanent failure). -/
def processQueueOnceAllFail (queue : List PendingNotification) : List PendingNotification :=
  queue.filterMap fun item =>
    let bumped : PendingNotification :=
      { item with retryCount := item.retryCount + 1 }
    if bumped.retryCount < MAX_RETRIES then some bumped else none

/-- Iterate the failing sweep a given number of passes. -/
def sweepIter : Nat → List PendingNotification → List PendingNotification
  | 0, q => q
  | n + 1, q => sweepIter n (processQueueOnceAllFail q)

/-! Concrete scenario data for the individual claims. -/

/-- C1 scenario: the stored RoomInfo of room 5, with room-level at_all = true
and gift_notify = false. -/
def c1Room : RoomInfo := { name := "roomfive", at_all := true, gift_notify := false }

/-- C1 scenario: the legacy persisted document: room 5 maps to the flat
subscriber list, and a RoomInfo for room 5 is stored. -/
def c1Doc : DataDoc :=
  { subscriptions := [(5, .legacy ["umoA", "umoB"])]
    room_info := [(5, c1Room.to_dict)] }

/-- C2 scenario: a reachable config (giftfilter off after a default subscribe
leaves the threshold set) whose high_value_only flag does not round-trip. -/
def c2Cfg : SubscriptionConfig :=
  { at_all := false, gift_notify := false, high_value_only := false
    high_value_threshold := some 100 }

/-- C2 scenario: an in-memory state holding that config. -/
def c2State : DMData :=
  { subscriptions := [(5, [("u", c2Cfg)])]
    room_info := [(5, { name := "someRoom" })] }

/-- C2 witness scenario: a state whose configs are all consistent. -/
def c2GoodState : DMData :=
  { subscriptions :=
      [(5, [("u", { at_all := true, gift_notify := true, high_value_only := true
                    high_value_threshold := some 2000 }),
            ("v", { at_all := false, gift_notify := false, high_value_only := false
                    high_value_threshold := none })])]
    room_info := [(5, { name := "someRoom", added_by := "admin", at_all := true })] }

/-- C3 scenario: a remote catalog whose gift g has devote 3000 and whose gift
p has devote 12000 (so the parsed high-value set is exactly that p). -/
def c3Payload : GiftData :=
  { data := [("g", .info (some "cheapGift") (some (.num 3000))),
             ("p", .info (some "plane") (some (.num 12000)))] }

/-- C3 scenario: the caches after a successful refresh from that catalog. -/
def c3Caches : GiftCaches := (update_gift_config (.json c3Payload) {}).2

/-- C3 scenario: three subscribers with gift notifications on; u1 has
threshold 5000, u2 threshold 2000 (both with the high-value filter flag on,
as from_dict derives it from a set threshold), u3 a null threshold. -/
def c3Subs : List (String × SubscriptionConfig) :=
  [("u1", { at_all := false, gift_notify := true, high_value_only := true
            high_value_threshold := some 5000 }),
   ("u2", { at_all := false, gift_notify := true, high_value_only := true
            high_value_threshold := some 2000 }),
   ("u3", { at_all := false, gift_notify := true, high_value_only := false
            high_value_threshold := none })]

/-- C4 scenario: live status pings at 2, 5 and 15 seconds after connection
establishment. -/
def c4Trace : List (RssMsg × Int) := [(liveMsg, 2), (liveMsg, 5), (liveMsg, 15)]

/-- C5 scenario, step 1: the notification-emitting transition at t = 0. -/
def c5Step1 : MonitorState × List MonitorEvent := rssHandler 7 monitorInit liveMsg 0

/-- C5 scenario, step 2: the genuine reverse transition at t = 10, inside the
30-second cooldown. -/
def c5Step2 : MonitorState × List MonitorEvent := rssHandler 7 c5Step1.1 offlineMsg 10

/-- C5 scenario, step 3: the transition at t = 40, outside the cooldown and
differing from the state recorded at t = 10. -/
def c5Step3 : MonitorState × List MonitorEvent := rssHandler 7 c5Step2.1 liveMsg 40

/-- C7 scenario: a freshly created pending notification (retry counter 0). -/
def c7Item : PendingNotification :=
  { subscriberSettings := [("u", true)], message := "hello" }

/-- C8 witness scenario: a state in which u is already subscribed to room 5
with a non-default config. -/
def c8State : DMData :=
  { subscriptions :=
      [(5, [("u", { at_all := true, gift_notify := true, high_value_only := false
                    high_value_threshold := none })])]
    room_info := [] }

end Douyu

namespace Douyu

/-! Helper lemmas. -/

/-- from_dict inverts to_dict exactly when the config is consistent, meaning
its high_value_only flag agrees with the presence of a threshold. -/
theorem from_dict_to_dict (c : SubscriptionConfig)
    (h : c.high_value_only = c.high_value_threshold.isSome) :
    SubscriptionConfig.from_dict c.to_dict = c := by
  obtain ⟨a, g, hvo, thr⟩ := c
  cases thr <;> simp [Option.isSome] at h <;>
    simp [SubscriptionConfig.to_dict, SubscriptionConfig.from_dict, h]

/-- RoomInfo round-trips unconditionally. -/
theorem room_from_dict_to_dict (r : RoomInfo) : RoomInfo.from_dict r.to_dict = r := by
  obtain ⟨n, a, t, aa, g, mp⟩ := r
  rfl

/-- Loading a saved per-room config map restores it, for consistent configs. -/
theorem map_load_save (m : List (String × SubscriptionConfig))
    (h : ∀ q ∈ m, q.2.high_value_only = q.2.high_value_threshold.isSome) :
    (m.map fun q => (q.1, ConfigCell.dict q.2.to_dict)).map
      (fun q => (q.1, loadConfigCell q.2)) = m := by
  induction m with
  | nil => rfl
  | cons q rest ih =>
      simp only [List.map_cons, List.cons.injEq]
      refine ⟨?_, ih fun p hp => h p (List.mem_cons_of_mem _ hp)⟩
      have hc := from_dict_to_dict q.2 (h q (List.mem_cons_self _ _))
      simp [loadConfigCell, hc]

/-- Loading the saved subscriptions map restores it, for consistent configs. -/
theorem loadSubs_saved (ri : List (Nat × RoomInfo))
    (l : List (Nat × List (String × SubscriptionConfig)))
    (h : ∀ p ∈ l, ∀ q ∈ p.2, q.2.high_value_only = q.2.high_value_threshold.isSome) :
    loadSubs ri (l.map fun p =>
      (p.1, SubEntry.configs (p.2.map fun q => (q.1, ConfigCell.dict q.2.to_dict)))) = .ok l := by
  induction l with
  | nil => rfl
  | cons p rest ih =>
      simp only [List.map_cons, loadSubs, loadSubEntry]
      rw [map_load_save p.2 (h p (List.mem_cons_self _ _))]
      rw [ih fun p2 hp q hq => h p2 (List.mem_cons_of_mem _ hp) q hq]

/-- Loading the saved room_info map restores it. -/
theorem room_map_load_save (l : List (Nat × RoomInfo)) :
    (l.map fun p => (p.1, p.2.to_dict)).map (fun p => (p.1, RoomInfo.from_dict p.2)) = l := by
  induction l with
  | nil => rfl
  | cons p rest ih => simp [room_from_dict_to_dict, ih]

/-- A saved document never contains a legacy room entry. -/
theorem hasLegacy_save (s : DMData) : (DataManager.save s).hasLegacy = false := by
  have key : ∀ l : List (Nat × List (String × SubscriptionConfig)),
      (l.map fun p =>
        (p.1, SubEntry.configs (p.2.map fun q => (q.1, ConfigCell.dict q.2.to_dict)))).any
          (fun p => p.2.isLegacy) = false := by
    intro l
    induction l with
    | nil => rfl
    | cons p rest ih =>
        rw [List.map_cons, List.any_cons, ih]
        rfl
  exact key s.subscriptions

/-- The failing sweep maps the empty queue to the empty queue. -/
theorem sweepIter_nil (k : Nat) : sweepIter k [] = [] := by
  induction k with
  | zero => rfl
  | succ n ih => simpa [sweepIter, processQueueOnceAllFail] using ih

/-- Running k failing passes over a single queued item with retry counter
r below the maximum keeps it, with counter r + k, until the counter would
reach the maximum. -/
theorem sweep_progress (settings : List (String × Bool)) (msg : String) :
    ∀ (k r : Nat), r < MAX_RETRIES →
      sweepIter k [⟨settings, msg, r⟩] =
        if r + k < MAX_RETRIES then [⟨settings, msg, r + k⟩] else [] := by
  intro k
  induction k with
  | zero =>
      intro r hr
      simp [sweepIter, hr]
  | succ n ih =>
      intro r hr
      show sweepIter n (processQueueOnceAllFail [⟨settings, msg, r⟩]) = _
      by_cases hb : r + 1 < MAX_RETRIES
      · rw [show processQueueOnceAllFail [⟨settings, msg, r⟩] = [⟨settings, msg, r + 1⟩] by
          simp [processQueueOnceAllFail, hb]]
        rw [ih (r + 1) hb]
        have harith : r + 1 + n = r + (n + 1) := by omega
        have hiff : (r + 1 + n < MAX_RETRIES) = (r + (n + 1) < MAX_RETRIES) := by
          rw [harith]
        simp only [harith]
      · rw [show processQueueOnceAllFail [⟨settings, msg, r⟩] = [] by
          simp [processQueueOnceAllFail, hb]]
        rw [sweepIter_nil]
        have : ¬ r + (n + 1) < MAX_RETRIES := by omega
        simp [this]

/-! The claims. -/

/-- C1: the claim says legacy migration copies the room-level at_all and
gift_notify flags into each listed subscriber and rewrites the store in the
new format.  The code is a slip: during migration of a room that has a stored
RoomInfo it reads room_info.high_value_only, an attribute RoomInfo does not
define, so AttributeError is raised, the blanket except clause resets both
in-memory maps to empty, and save() is never reached.  This theorem evaluates
the load on the claim scenario: the migration aborts with the attribute
error, no SubscriptionConfig is produced for umoA or umoB, and no rewrite of
the store happens. -/
theorem c1_legacy_migration_crash :
    DataManager.loadCore c1Doc =
      Except.error "AttributeError: RoomInfo has no attribute named high_value_only" ∧
    DataManager.load c1Doc = (⟨[], []⟩, false) := by
  constructor <;> rfl

/-- C2 counterexample: the round-trip claim fails as stated.  The config with
high_value_only = false and threshold 100 (reachable: subscribe creates the
default config with a threshold, then the giftfilter command turns only the
flag off) comes back from from_dict with high_value_only = true, because
from_dict recomputes that flag from the presence of the stored threshold;
hence save-then-load does not reproduce the in-memory state. -/
theorem c2_roundtrip_counterexample :
    SubscriptionConfig.from_dict c2Cfg.to_dict ≠ c2Cfg ∧
    (DataManager.load (DataManager.save c2State)).1 ≠ c2State := by
  constructor <;> decide

/-- C2 (amended): saving then loading reproduces the identical room map and
subscription map, provided every stored config is consistent, meaning its
high_value_only flag equals the presence of its threshold (the invariant
from_dict itself establishes); every such config round-trips field for field.
For inconsistent configs from_dict normalizes high_value_only to the presence
of the threshold, which is what the counterexample exhibits. -/
theorem c2_roundtrip_amended (s : DMData)
    (h : ∀ p ∈ s.subscriptions, ∀ q ∈ p.2,
      q.2.high_value_only = q.2.high_value_threshold.isSome) :
    DataManager.load (DataManager.save s) = (s, false) := by
  have hcore : DataManager.loadCore (DataManager.save s) = Except.ok s := by
    simp only [DataManager.loadCore, DataManager.save]
    rw [room_map_load_save s.room_info, loadSubs_saved s.room_info s.subscriptions h]
  simp [DataManager.load, hcore, hasLegacy_save]

/-- C2 witness: the amended round-trip applied to a concrete consistent state. -/
theorem c2_roundtrip_witness :
    DataManager.load (DataManager.save c2GoodState) = (c2GoodState, false) :=
  c2_roundtrip_amended c2GoodState (by decide)

/-- C7: for a pending notification whose every delivery attempt fails, each
pass of the retry sweep increments the retry counter and re-queues the item
while the counter stays below MAX_RETRIES = 5; after the 5th failed pass the
item is dropped and, the queue being empty and the sweep preserving the empty
queue, it never appears again. -/
theorem c7_retry_limit (settings : List (String × Bool)) (msg : String) (k : Nat) :
    (k < MAX_RETRIES → sweepIter k [⟨settings, msg, 0⟩] = [⟨settings, msg, k⟩]) ∧
    (MAX_RETRIES ≤ k → sweepIter k [⟨settings, msg, 0⟩] = []) := by
  have h := sweep_progress settings msg k 0 (by decide)
  rw [Nat.zero_add] at h
  constructor
  · intro hk
    rw [h]
    simp [hk]
  · intro hk
    rw [h]
    have : ¬ k < MAX_RETRIES := by omega
    simp [this]

/-- C7 witness: after 4 failing passes the item is still queued with counter
4; the 5th pass drops it, and pass 6 still shows the empty queue. -/
theorem c7_retry_limit_witness :
    sweepIter 4 [⟨c7Item.subscriberSettings, c7Item.message, 0⟩] =
      [⟨c7Item.subscriberSettings, c7Item.message, 4⟩] ∧
    sweepIter 5 [⟨c7Item.subscriberSettings, c7Item.message, 0⟩] = [] ∧
    sweepIter 6 [⟨c7Item.subscriberSettings, c7Item.message, 0⟩] = [] :=
  ⟨(c7_retry_limit c7Item.subscriberSettings c7Item.message 4).1 (by decide),
   (c7_retry_limit c7Item.subscriberSettings c7Item.message 5).2 (by decide),
   (c7_retry_limit c7Item.subscriberSettings c7Item.message 6).2 (by decide)⟩

/-- C8: when the (room, umo) pair is already subscribed with some config, a
second subscribe returns False, leaves the whole data state unchanged (hence
creates no duplicate), and the existing config is untouched, no field reset. -/
theorem c8_subscribe_twice (d : DMData) (room : Nat) (umo : String)
    (m : List (String × SubscriptionConfig)) (cfg : SubscriptionConfig)
    (hroom : List.lookup room d.subscriptions = some m)
    (humo : List.lookup umo m = some cfg) :
    DataManager.subscribe d room umo = (false, d) ∧
    DataManager.get_subscription_config (DataManager.subscribe d room umo).2 room umo =
      some cfg := by
  have hsub : DataManager.subscribe d room umo = (false, d) := by
    simp [DataManager.subscribe, hroom, humo]
  refine ⟨hsub, ?_⟩
  rw [hsub]
  simp [DataManager.get_subscription_config, hroom, humo]

/-- C8 witness: the second subscribe on a concrete already-subscribed pair. -/
theorem c8_subscribe_twice_witness :
    DataManager.subscribe c8State 5 "u" = (false, c8State) ∧
    DataManager.get_subscription_config (DataManager.subscribe c8State 5 "u").2 5 "u" =
      some { at_all := true, gift_notify := true, high_value_only := false
             high_value_threshold := none } :=
  c8_subscribe_twice c8State 5 "u"
    [("u", { at_all := true, gift_notify := true, high_value_only := false
             high_value_threshold := none })]
    { at_all := true, gift_notify := true, high_value_only := false
      high_value_threshold := none }
    (by decide) (by decide)

/-- C9: every failure mode of the gift-catalog refresh (HTTP error, empty
response, unparsable JSON, a payload with no gift data) returns an exception
and leaves all previously cached mappings exactly as they were; in general,
whenever update_gift_config reports an error the caches are unchanged, so a
failed refresh can never clear them to empty. -/
theorem c9_refresh_failure_preserves_caches (c : GiftCaches) (d : GiftData) :
    (update_gift_config .httpError c).2 = c ∧
    (update_gift_config .emptyBody c).2 = c ∧
    (update_gift_config .notJson c).2 = c ∧
    ((parse_gift_mapping d).isEmpty = true →
      (update_gift_config (.json d) c).1 =
          Except.error "ValueError: no gift data in response" ∧
        (update_gift_config (.json d) c).2 = c) ∧
    (∀ (resp : GiftResponse) (e : String),
      (update_gift_config resp c).1 = Except.error e →
      (update_gift_config resp c).2 = c) := by
  refine ⟨rfl, rfl, rfl, ?_, ?_⟩
  · intro hmap
    constructor <;> simp [update_gift_config, hmap]
  · intro resp e herr
    cases resp with
    | httpError => rfl
    | emptyBody => rfl
    | notJson => rfl
    | json dd =>
        by_cases hmap : (parse_gift_mapping dd).isEmpty
        · simp [update_gift_config, hmap]
        · simp [update_gift_config, hmap] at herr

/-- C9 witness: the theorem applied to a concrete cache and the concrete
payload with no gift data. -/
theorem c9_refresh_failure_witness :
    (update_gift_config (.json ⟨[]⟩)
        { giftName := [("124", "flower")], highValue := ["1005"] }).2 =
      { giftName := [("124", "flower")], highValue := ["1005"] } :=
  ((c9_refresh_failure_preserves_caches
      { giftName := [("124", "flower")], highValue := ["1005"] } ⟨[]⟩).2.2.2.1
    (by decide)).2

/-- Shape of a single debouncer step: it emits nothing (and then never turns
the announced flag on), exactly one liveStarted (turning the flag on), or
exactly one liveEnded (possible only when the flag was on, and turning it
off). -/
theorem rss_step_shape (roomId : Nat) (s : MonitorState) (m : RssMsg) (now : Int) :
    ((rssHandler roomId s m now).2 = [] ∧
      ((rssHandler roomId s m now).1.hasAnnouncedLive = true →
        s.hasAnnouncedLive = true)) ∨
    ((rssHandler roomId s m now).2 = [MonitorEvent.liveStarted roomId now] ∧
      (rssHandler roomId s m now).1.hasAnnouncedLive = true) ∨
    (∃ dur, (rssHandler roomId s m now).2 = [MonitorEvent.liveEnded roomId dur] ∧
      s.hasAnnouncedLive = true ∧
      (rssHandler roomId s m now).1.hasAnnouncedLive = false) := by
  unfold rssHandler
  cases hs : s.lastLiveStatus <;> dsimp only <;> repeat' split <;> simp_all

/-- The balance invariant behind C6: along any run, every initial segment of the
emission list contains at most as many liveEnded as liveStarted events, up to
a credit of one when the starting state already has the announced flag set. -/
theorem runRss_count_bound (roomId : Nat) (trace : List (RssMsg × Int)) :
    ∀ (s : MonitorState) (n : Nat),
      countEnded ((runRss roomId s trace).2.take n) ≤
        countStarted ((runRss roomId s trace).2.take n) +
          (if s.hasAnnouncedLive then 1 else 0) := by
  induction trace with
  | nil =>
      intro s n
      simp [runRss, countEnded]
  | cons p rest ih =>
      intro s n
      have hrun : (runRss roomId s (p :: rest)).2 =
          (rssHandler roomId s p.1 p.2).2 ++
            (runRss roomId (rssHandler roomId s p.1 p.2).1 rest).2 := rfl
      rcases rss_step_shape roomId s p.1 p.2 with ⟨he, himp⟩ | ⟨he, ha⟩ | ⟨dur, he, ha, ha2⟩
      · have hpad : (if (rssHandler roomId s p.1 p.2).1.hasAnnouncedLive then 1 else 0) ≤
            (if s.hasAnnouncedLive then (1 : Nat) else 0) := by
          by_cases h1 : (rssHandler roomId s p.1 p.2).1.hasAnnouncedLive
          · simp [h1, himp h1]
          · simp [h1]
        have := ih (rssHandler roomId s p.1 p.2).1 n
        rw [hrun, he, List.nil_append]
        omega
      · rw [hrun, he, List.singleton_append]
        cases n with
        | zero => simp [countEnded, countStarted]
        | succ k =>
            rw [List.take_succ_cons]
            have hih := ih (rssHandler roomId s p.1 p.2).1 k
            rw [ha] at hih
            simp at hih
            simp only [countEnded, countStarted]
            omega
      · rw [hrun, he, List.singleton_append]
        cases n with
        | zero => simp [countEnded, countStarted]
        | succ k =>
            rw [List.take_succ_cons]
            have hih := ih (rssHandler roomId s p.1 p.2).1 k
            rw [ha2] at hih
            simp at hih
            simp only [countEnded, countStarted, ha]
            simp
            omega

/-- C6: for every ping sequence fed to a fresh per-room debouncer, every
initial segment of the emitted notifications contains at least as many LiveStarted as
LiveEnded events — a LiveEnded is only ever emitted while a live session
opened by an emitted LiveStarted is outstanding; and concretely, a step
observed while the announced flag is unset emits no LiveEnded at all. -/
theorem c6_no_spurious_live_ended (roomId : Nat) :
    (∀ (trace : List (RssMsg × Int)) (n : Nat),
        countEnded ((runRss roomId monitorInit trace).2.take n) ≤
          countStarted ((runRss roomId monitorInit trace).2.take n)) ∧
    (∀ (s : MonitorState) (m : RssMsg) (now : Int),
        s.hasAnnouncedLive = false →
        countEnded (rssHandler roomId s m now).2 = 0) := by
  constructor
  · intro trace n
    have := runRss_count_bound roomId trace monitorInit n
    simpa [monitorInit] using this
  · intro s m now hflag
    rcases rss_step_shape roomId s m now with ⟨he, _⟩ | ⟨he, _⟩ | ⟨dur, he, ha, _⟩
    · rw [he]; rfl
    · rw [he]; rfl
    · rw [ha] at hflag
      cases hflag

/-- C6 witness: a live-to-offline observation with the announced flag unset
(a session never announced) produces no offline notification. -/
theorem c6_no_spurious_live_ended_witness :
    countEnded (rssHandler 7
      { lastLiveStatus := some true, liveStartTime := some 3
        hasAnnouncedLive := false, lastNotifyTime := -100 } offlineMsg 0).2 = 0 :=
  (c6_no_spurious_live_ended 7).2
    { lastLiveStatus := some true, liveStartTime := some 3
      hasAnnouncedLive := false, lastNotifyTime := -100 } offlineMsg 0 rfl

/-- Propositional reading of the Boolean gift-filter predicate. -/
theorem gift_filter_bool_iff (a b c : Bool) :
    (a && (!b || c)) = true ↔ a = true ∧ (b = true → c = true) := by
  cases a <;> cases b <;> cases c <;> simp

/-- C3 counterexample: the claim says a subscriber is suppressed exactly when
their threshold exceeds the resolved gift value, so a subscriber with
threshold 2000 should receive a gift worth 3000, and an unresolvable gift
should never be suppressed.  In the code the gift dispatch filter never reads
the per-subscriber threshold: it keeps a subscriber iff gift_notify is on and
(high_value_only is off or the gift is in the catalog high-value set, devote
at least 10000).  With the catalog valuing gift g at 3000, subscriber u2
(threshold 2000, filter flag on) is suppressed, and the unknown gift zz is
likewise suppressed for u1 and u2 rather than passing every filter. -/
theorem c3_gift_filter_counterexample :
    get_gift_value c3Caches "g" (some 5) = some 3000 ∧
    ¬ "u2" ∈ onGiftSubscribers c3Caches 5 c3Subs "g" ∧
    onGiftSubscribers c3Caches 5 c3Subs "g" = ["u3"] ∧
    get_gift_value c3Caches "zz" (some 5) = none ∧
    onGiftSubscribers c3Caches 5 c3Subs "zz" = ["u3"] := by
  refine ⟨?_, ?_, ?_, ?_, ?_⟩ <;> decide

/-- C3 (amended): a subscriber is in the dispatch set for a gift event iff
their config has gift notifications enabled and, when its high_value_only
flag is set, the gift id is in the catalog high-value set (devote at least
HIGH_VALUE_DEVOTE_THRESHOLD, per-room set taking priority).  The
per-subscriber high_value_threshold is never consulted, and a gift absent
from the high-value set — including one whose value is unresolvable — is
suppressed for every subscriber with the flag set. -/
theorem c3_gift_filter_amended (c : GiftCaches) (room : Nat)
    (subs : List (String × SubscriptionConfig)) (giftId : String) (u : String) :
    u ∈ onGiftSubscribers c room subs giftId ↔
      ∃ cfg : SubscriptionConfig, (u, cfg) ∈ subs ∧ cfg.gift_notify = true ∧
        (cfg.high_value_only = true → is_high_value_gift c giftId (some room) = true) := by
  unfold onGiftSubscribers
  simp only [List.mem_map, List.mem_filter]
  constructor
  · rintro ⟨⟨v, cfg⟩, ⟨hmem, hpred⟩, rfl⟩
    rcases (gift_filter_bool_iff _ _ _).mp hpred with ⟨hg, himp⟩
    exact ⟨cfg, hmem, hg, himp⟩
  · rintro ⟨cfg, hmem, hg, himp⟩
    exact ⟨(u, cfg), ⟨hmem, (gift_filter_bool_iff _ _ _).mpr ⟨hg, himp⟩⟩, rfl⟩

/-- C3 witness: the amended characterization applied to the concrete
scenario: u3 (filter flag off) is dispatched the gift worth 3000. -/
theorem c3_gift_filter_witness :
    "u3" ∈ onGiftSubscribers c3Caches 5 c3Subs "g" :=
  (c3_gift_filter_amended c3Caches 5 c3Subs "g" "u3").mpr
    ⟨{ at_all := false, gift_notify := true, high_value_only := false
       high_value_threshold := none },
     by decide, rfl, by decide⟩

/-- C4 counterexample: the claim asserts that with a 10-second start-up
stabilization window, live pings at t = 2, 5 and 15 emit zero LiveStarted
events before t = 10.  The monitor has no stabilization window: running the
claim scenario from the fresh monitor state emits LiveStarted at t = 2,
strictly before t = 10. -/
theorem c4_stabilization_counterexample :
    (runRss 7 monitorInit c4Trace).2 = [MonitorEvent.liveStarted 7 2] ∧ (2 : Int) < 10 := by
  constructor
  · decide
  · decide

/-- C4 (amended): core/monitor.py configures no start-up stabilization
window; the first status ping received in the Unknown state that reports live
immediately emits LiveStarted.  With live pings at t = 2, 5 and 15 exactly
one LiveStarted is emitted, at t = 2; the t = 5 and t = 15 pings find the
internal state already recorded as live and are ignored as no-change, so the
t = 15 ping does not re-fire LiveStarted. -/
theorem c4_no_stabilization_window :
    (runRss 7 monitorInit c4Trace).2 = [MonitorEvent.liveStarted 7 2] ∧
    countStarted (runRss 7 monitorInit c4Trace).2 = 1 ∧
    (runRss 7 monitorInit c4Trace).1.lastLiveStatus = some true ∧
    (runRss 7 monitorInit c4Trace).1.hasAnnouncedLive = true := by
  refine ⟨?_, ?_, ?_, ?_⟩ <;> decide

/-- C5: with the 30-second cooldown, after the notification-emitting
transition at t = 0 a genuine reverse transition at t = 10 updates the
internal status (to offline) but emits nothing, and the transition at t = 40,
which differs from the state recorded at t = 10, emits its notification. -/
theorem c5_cooldown_scenario :
    c5Step1.2 = [MonitorEvent.liveStarted 7 0] ∧
    c5Step2.2 = [] ∧
    c5Step2.1.lastLiveStatus = some false ∧
    c5Step3.2 = [MonitorEvent.liveStarted 7 40] := by
  refine ⟨?_, ?_, ?_, ?_⟩ <;> decide

/-- C10: the last-notification timestamp moves exactly when the handler emits
a notification: a step that emits no event (no-change ping, cooldown-absorbed
change, suppressed offline, silent initial offline) leaves _last_notify_time
untouched, and a step that emits (including the initial-live emission) sets
it to the instant of emission — so the cooldown is always measured from the
most recently emitted notification. -/
theorem c10_notify_time_only_on_emit (roomId : Nat) (s : MonitorState) (m : RssMsg) (now : Int) :
    ((rssHandler roomId s m now).2 = [] →
      (rssHandler roomId s m now).1.lastNotifyTime = s.lastNotifyTime) ∧
    ((rssHandler roomId s m now).2 ≠ [] →
      (rssHandler roomId s m now).1.lastNotifyTime = now) := by
  unfold rssHandler
  cases hs : s.lastLiveStatus <;> dsimp only <;> repeat' split <;> simp_all

/-- C10 witness: a cooldown-absorbed change keeps the old timestamp, and an
emitting step stamps the emission instant. -/
theorem c10_notify_time_witness :
    (rssHandler 7
        { lastLiveStatus := some true, liveStartTime := some 0
          hasAnnouncedLive := true, lastNotifyTime := 0 } offlineMsg 10).1.lastNotifyTime = 0 ∧
    (rssHandler 7
        { lastLiveStatus := some false, liveStartTime := none
          hasAnnouncedLive := false, lastNotifyTime := 0 } liveMsg 40).1.lastNotifyTime = 40 :=
  ⟨(c10_notify_time_only_on_emit 7
      { lastLiveStatus := some true, liveStartTime := some 0
        hasAnnouncedLive := true, lastNotifyTime := 0 } offlineMsg 10).1 (by decide),
   (c10_notify_time_only_on_emit 7
      { lastLiveStatus := some false, liveStartTime := none
        hasAnnouncedLive := false, lastNotifyTime := 0 } liveMsg 40).2 (by decide)⟩

end Douyu
